import Mathlib

/-!
Verification of the slice controller (src/btree/slice.cc) and the
versioned-encoding dispatch (src/containers/archive/versioned.hpp) of the
rethinkdb storage engine, as a shallow embedding in Lean.

Machine integers of the source (uint32 timestamps and ids, block ids,
byte values) are modelled as Nat; byte sequences as List Nat.  External
collaborators (B-tree algorithms, buffer cache, order checkpoint) that are
declared out of scope by the specification, or whose code is not part of
the extracted sources, are modelled from the specification; every such
definition carries a doc comment beginning with the words Modelled from
the spec.  Calls into external algorithms are represented as free terms
recording which algorithm was invoked with which parameters, so that the
dispatch theorems can speak about exactly which call each operation makes.
-/

/- ------------------------------------------------------------------ -/
/- Basic scalar types                                                 -/
/- ------------------------------------------------------------------ -/

/-- repli_timestamp_t: a uint32 replication timestamp, modelled as Nat. -/
abbrev repli_timestamp_t := Nat

/-- Modelled from the spec: repli_timestamp_t.distant_past is the
oldest-possible timestamp (the definition of repli_timestamp_t is not
among the extracted sources); with Nat timestamps it is 0. -/
def distant_past : repli_timestamp_t := 0

/-- store_key_t: a key, a bounded byte string, modelled as a list of bytes. -/
abbrev store_key_t := List Nat

/-- order_token_t: a causal sequence marker, modelled as a Nat position. -/
abbrev order_token_t := Nat

/-- Modelled from the spec: key_tester_t (btree/erase_range.hpp is not among
the extracted sources) is an opaque caller-supplied predicate object; it is
modelled as an opaque identifier, since the slice code only forwards it. -/
abbrev key_tester_t := Nat

/-- Modelled from the spec: NULL_BLOCK_ID is the sentinel block id meaning
an empty tree (the serializer headers are not among the extracted sources);
the concrete value is the all-ones 32-bit pattern. -/
def NULL_BLOCK_ID : Nat := 4294967295

/-- Modelled from the spec: the fixed superblock magic tag validated on
every read (btree/node.hpp is not among the extracted sources); the exact
byte value is irrelevant, only that it is one fixed nonzero constant. -/
def expected_magic : Nat := 1936289396

/- ------------------------------------------------------------------ -/
/- Cache and sequence groups                                          -/
/- ------------------------------------------------------------------ -/

/-- The slice-relevant view of cache_t: the slice number of this cache and
its block size (buffer_cache headers are external collaborators). -/
structure cache_t where
  slice_num : Nat
  block_size : Nat
deriving DecidableEq, Repr

/-- cache_t::get_slice_num. -/
def cache_t.get_slice_num (c : cache_t) : Nat :=
  c.slice_num

/-- Modelled from the spec: sequence_group_t (buffer_cache/sequence_group.hpp
is not among the extracted sources) is a set of FIFO lanes for cache
transactions, one per shard index, allocated at construction; its
constructor argument is the number of lanes. -/
structure sequence_group_t where
  fifo_count : Nat
deriving DecidableEq, Repr

/-- Modelled from the spec: creating a cache transaction for a given shard
index uses the FIFO lane of that index; it fits without reallocation
exactly when the index is below the number of lanes allocated at
construction. -/
def transaction_fits (sg : sequence_group_t) (shard_index : Nat) : Bool :=
  shard_index < sg.fifo_count

/- ------------------------------------------------------------------ -/
/- Key ranges and the fixed (non-versioned) metainfo encoding          -/
/- ------------------------------------------------------------------ -/

/-- Modelled from the spec: the bound modes of a key_range_t endpoint
(btree/slice.hpp is not among the extracted sources); the slice code uses
the open mode for the all-keys range. -/
inductive bound_mode_t
  | bm_open
  | bm_closed
deriving DecidableEq, Repr

/-- key_range_t: an interval over the key space with a mode and key for
each endpoint. -/
structure key_range_t where
  left_mode : bound_mode_t
  left_key : store_key_t
  right_mode : bound_mode_t
  right_key : store_key_t
deriving DecidableEq, Repr

/-- Byte code of a bound mode in the fixed metainfo encoding. -/
def bound_mode_t.code : bound_mode_t → Nat
  | bound_mode_t.bm_open => 0
  | bound_mode_t.bm_closed => 1

/-- Decode a bound mode byte. -/
def decode_bound_mode : Nat → Option bound_mode_t
  | 0 => some bound_mode_t.bm_open
  | 1 => some bound_mode_t.bm_closed
  | _ => none

/-- Modelled from the spec: the fixed non-versioned encoding of a store key
(the binary archive used at the metainfo write is an external library):
length-prefixed bytes. -/
def encode_store_key (k : store_key_t) : List Nat :=
  k.length :: k

/-- Read back one length-prefixed store key from a byte stream, returning
the key and the remaining stream. -/
def read_store_key : List Nat → Option (store_key_t × List Nat)
  | [] => none
  | n :: rest =>
      if n ≤ rest.length then some (rest.take n, rest.drop n) else none

/-- Modelled from the spec: the fixed non-versioned encoding of a key range
written into the superblock metainfo at creation: left mode byte, left key,
right mode byte, right key. -/
def encode_key_range (r : key_range_t) : List Nat :=
  r.left_mode.code ::
    (encode_store_key r.left_key ++
      (r.right_mode.code :: encode_store_key r.right_key))

/-- Decode a key range from the fixed metainfo encoding; fails on a bad
mode byte, a truncated key, or trailing garbage. -/
def decode_key_range (l : List Nat) : Option key_range_t :=
  match l with
  | [] => none
  | mb₁ :: rest₁ =>
      match decode_bound_mode mb₁ with
      | none => none
      | some lm =>
          match read_store_key rest₁ with
          | none => none
          | some (lk, rest₂) =>
              match rest₂ with
              | [] => none
              | mb₂ :: rest₃ =>
                  match decode_bound_mode mb₂ with
                  | none => none
                  | some rm =>
                      match read_store_key rest₃ with
                      | none => none
                      | some (rk, rest₄) =>
                          if rest₄ = [] then
                            some ⟨lm, lk, rm, rk⟩
                          else none

/- ------------------------------------------------------------------ -/
/- The superblock                                                     -/
/- ------------------------------------------------------------------ -/

/-- btree_superblock_t: the fixed root metadata record of one shard.  The
metainfo blob is modelled as its decoded list of key/value entries. -/
structure btree_superblock_t where
  magic : Nat
  root_block : Nat
  replication_clock : repli_timestamp_t
  last_sync : repli_timestamp_t
  replication_master_id : Nat
  replication_slave_id : Nat
  metainfo : List (List Nat × List Nat)
deriving DecidableEq, Repr

/-- The effect of bzero on the superblock block: all fields zero, empty
metainfo blob. -/
def bzeroed_superblock : btree_superblock_t :=
  { magic := 0
    root_block := 0
    replication_clock := 0
    last_sync := 0
    replication_master_id := 0
    replication_slave_id := 0
    metainfo := [] }

/-- Modelled from the spec: set_superblock_metainfo (its definition is not
among the extracted sources) stores the given key/value entry as the
content of the freshly zeroed metainfo blob. -/
def set_superblock_metainfo (sb : btree_superblock_t)
    (key value : List Nat) : btree_superblock_t :=
  { sb with metainfo := [(key, value)] }

/-- Decode the key range stored as the first metainfo entry of a
superblock. -/
def decode_superblock_key_range (sb : btree_superblock_t) :
    Option key_range_t :=
  match sb.metainfo with
  | [] => none
  | (k, _) :: _ => decode_key_range k

/-- The superblock buffer as held under a buf_lock_t: the block content
together with the recency marker kept by the cache for that block. -/
structure superblock_buf_t where
  sb : btree_superblock_t
  recency : repli_timestamp_t
deriving DecidableEq, Repr

/- ------------------------------------------------------------------ -/
/- Ordering layer                                                     -/
/- ------------------------------------------------------------------ -/

/-- Modelled from the spec: the order checkpoint (order_token_t machinery
is not among the extracted sources) keeps the highest token admitted so
far; check_through records the new high-water mark and returns a token
that is at least every token previously accepted.  The state of a
checkpoint is its high-water mark. -/
def order_checkpoint_check_through (cp : Nat) (token : order_token_t) :
    Nat × order_token_t :=
  (Nat.max cp token, Nat.max cp token)

/- ------------------------------------------------------------------ -/
/- Mutations                                                          -/
/- ------------------------------------------------------------------ -/

/-- castime_t: a proposed CAS value paired with a replication timestamp. -/
structure castime_t where
  proposed_cas : Nat
  timestamp : repli_timestamp_t
deriving DecidableEq, Repr

/-- The incr/decr direction tag. -/
inductive incr_decr_kind_t
  | incr_decr_INCR
  | incr_decr_DECR
deriving DecidableEq, Repr

/-- The append/prepend direction tag. -/
inductive append_prepend_kind_t
  | append_prepend_APPEND
  | append_prepend_PREPEND
deriving DecidableEq, Repr

/-- get_cas_mutation_t: the fields the dispatcher reads. -/
structure get_cas_mutation_t where
  key : store_key_t
deriving DecidableEq, Repr

/-- sarc_mutation_t (set/replace with policy): the fields the dispatcher
reads.  Data, policies, flags and expiry are opaque to the dispatcher and
modelled as plain values. -/
structure sarc_mutation_t where
  key : store_key_t
  data : List Nat
  flags : Nat
  exptime : Nat
  add_policy : Nat
  replace_policy : Nat
  old_cas : Nat
deriving DecidableEq, Repr

/-- incr_decr_mutation_t: the fields the dispatcher reads. -/
structure incr_decr_mutation_t where
  key : store_key_t
  kind : incr_decr_kind_t
  amount : Nat
deriving DecidableEq, Repr

/-- append_prepend_mutation_t: the fields the dispatcher reads. -/
structure append_prepend_mutation_t where
  key : store_key_t
  data : List Nat
  kind : append_prepend_kind_t
deriving DecidableEq, Repr

/-- delete_mutation_t: the fields the dispatcher reads. -/
structure delete_mutation_t where
  key : store_key_t
  dont_put_in_delete_queue : Bool
deriving DecidableEq, Repr

/-- The closed sum of the five mutation variants carried by mutation_t. -/
inductive mutation_variant_t
  | get_cas (m : get_cas_mutation_t)
  | sarc (m : sarc_mutation_t)
  | incr_decr (m : incr_decr_mutation_t)
  | append_prepend (m : append_prepend_mutation_t)
  | delete (m : delete_mutation_t)
deriving DecidableEq, Repr

/-- mutation_t: a tagged mutation request. -/
structure mutation_t where
  mutation : mutation_variant_t
deriving DecidableEq, Repr

/- ------------------------------------------------------------------ -/
/- External B-tree algorithms as free call terms                      -/
/- ------------------------------------------------------------------ -/

/-- Bound modes of an rget range scan. -/
inductive rget_bound_mode_t
  | rget_bound_open
  | rget_bound_closed
  | rget_bound_none
deriving DecidableEq, Repr

/-- Modelled from the spec: the identity of one underlying B-tree core
algorithm call, with the parameters the slice code passes to it.  The
external entry points (btree/get.hpp and friends are not among the
extracted sources) are specified to exist one per operation; per the spec,
the two overloads of each entry point run the same core algorithm and
differ only in transaction ownership. -/
inductive core_algo_t
  | get (key : store_key_t)
  | rget (left_mode : rget_bound_mode_t) (left_key : store_key_t)
      (right_mode : rget_bound_mode_t) (right_key : store_key_t)
  | get_cas (key : store_key_t) (ct : castime_t)
  | set (key : store_key_t) (data : List Nat) (flags exptime : Nat)
      (add_policy replace_policy old_cas : Nat) (ct : castime_t)
  | incr_decr (key : store_key_t) (increment : Bool) (amount : Nat)
      (ct : castime_t)
  | append_prepend (key : store_key_t) (data : List Nat) (append : Bool)
      (ct : castime_t)
  | delete (key : store_key_t) (dont_put_in_delete_queue : Bool)
      (timestamp : repli_timestamp_t)
  | erase_range (tester : key_tester_t) (left_key_supplied : Bool)
      (left_key_exclusive : store_key_t) (right_key_supplied : Bool)
      (right_key_inclusive : store_key_t)
  | backfill (range : key_range_t) (since_when : repli_timestamp_t)
      (callback : Nat)
deriving DecidableEq, Repr

/-- Modelled from the spec: the result of an external B-tree algorithm
call, recorded as a free term: which core algorithm ran with which
parameters, and whether the callee opened its own transaction (true for
the sequence-group/token overloads, false for the overloads that receive
an already-open transaction and superblock handle). -/
structure algo_result_t where
  core : core_algo_t
  own_txn : Bool
deriving DecidableEq, Repr

/-- The names of the external algorithm entry points, used for call-trace
events. -/
inductive algo_name_t
  | btree_get
  | btree_rget_slice
  | btree_get_cas
  | btree_set
  | btree_incr_decr
  | btree_append_prepend
  | btree_delete
  | btree_erase_range
  | btree_backfill
deriving DecidableEq, Repr

/-- The entry-point name that a core algorithm call belongs to. -/
def algo_of_core : core_algo_t → algo_name_t
  | core_algo_t.get _ => algo_name_t.btree_get
  | core_algo_t.rget _ _ _ _ => algo_name_t.btree_rget_slice
  | core_algo_t.get_cas _ _ => algo_name_t.btree_get_cas
  | core_algo_t.set _ _ _ _ _ _ _ _ => algo_name_t.btree_set
  | core_algo_t.incr_decr _ _ _ _ => algo_name_t.btree_incr_decr
  | core_algo_t.append_prepend _ _ _ _ => algo_name_t.btree_append_prepend
  | core_algo_t.delete _ _ _ => algo_name_t.btree_delete
  | core_algo_t.erase_range _ _ _ _ _ => algo_name_t.btree_erase_range
  | core_algo_t.backfill _ _ _ => algo_name_t.btree_backfill

/-- Modelled from the spec: btree_get, sequence-group/token overload. -/
def btree_get (key : store_key_t) (_seq_group : sequence_group_t)
    (_token : order_token_t) : algo_result_t :=
  ⟨core_algo_t.get key, true⟩

/-- Modelled from the spec: btree_get, open-transaction overload. -/
def btree_get_txn (key : store_key_t) : algo_result_t :=
  ⟨core_algo_t.get key, false⟩

/-- Modelled from the spec: btree_rget_slice, sequence-group/token
overload. -/
def btree_rget_slice (_seq_group : sequence_group_t)
    (left_mode : rget_bound_mode_t) (left_key : store_key_t)
    (right_mode : rget_bound_mode_t) (right_key : store_key_t)
    (_token : order_token_t) : algo_result_t :=
  ⟨core_algo_t.rget left_mode left_key right_mode right_key, true⟩

/-- Modelled from the spec: btree_rget_slice, open-transaction overload. -/
def btree_rget_slice_txn (left_mode : rget_bound_mode_t)
    (left_key : store_key_t) (right_mode : rget_bound_mode_t)
    (right_key : store_key_t) : algo_result_t :=
  ⟨core_algo_t.rget left_mode left_key right_mode right_key, false⟩

/-- Modelled from the spec: btree_get_cas, sequence-group/token overload. -/
def btree_get_cas (key : store_key_t) (_seq_group : sequence_group_t)
    (ct : castime_t) (_token : order_token_t) : algo_result_t :=
  ⟨core_algo_t.get_cas key ct, true⟩

/-- Modelled from the spec: btree_get_cas, open-transaction overload. -/
def btree_get_cas_txn (key : store_key_t) (ct : castime_t) : algo_result_t :=
  ⟨core_algo_t.get_cas key ct, false⟩

/-- Modelled from the spec: btree_set, sequence-group/token overload. -/
def btree_set (key : store_key_t) (_seq_group : sequence_group_t)
    (data : List Nat) (flags exptime : Nat)
    (add_policy replace_policy old_cas : Nat) (ct : castime_t)
    (_token : order_token_t) : algo_result_t :=
  ⟨core_algo_t.set key data flags exptime add_policy replace_policy
      old_cas ct, true⟩

/-- Modelled from the spec: btree_set, open-transaction overload. -/
def btree_set_txn (key : store_key_t) (data : List Nat)
    (flags exptime : Nat) (add_policy replace_policy old_cas : Nat)
    (ct : castime_t) : algo_result_t :=
  ⟨core_algo_t.set key data flags exptime add_policy replace_policy
      old_cas ct, false⟩

/-- Modelled from the spec: btree_incr_decr, sequence-group/token
overload. -/
def btree_incr_decr (key : store_key_t) (_seq_group : sequence_group_t)
    (increment : Bool) (amount : Nat) (ct : castime_t)
    (_token : order_token_t) : algo_result_t :=
  ⟨core_algo_t.incr_decr key increment amount ct, true⟩

/-- Modelled from the spec: btree_incr_decr, open-transaction overload. -/
def btree_incr_decr_txn (key : store_key_t) (increment : Bool)
    (amount : Nat) (ct : castime_t) : algo_result_t :=
  ⟨core_algo_t.incr_decr key increment amount ct, false⟩

/-- Modelled from the spec: btree_append_prepend, sequence-group/token
overload. -/
def btree_append_prepend (key : store_key_t)
    (_seq_group : sequence_group_t) (data : List Nat) (append : Bool)
    (ct : castime_t) (_token : order_token_t) : algo_result_t :=
  ⟨core_algo_t.append_prepend key data append ct, true⟩

/-- Modelled from the spec: btree_append_prepend, open-transaction
overload. -/
def btree_append_prepend_txn (key : store_key_t) (data : List Nat)
    (append : Bool) (ct : castime_t) : algo_result_t :=
  ⟨core_algo_t.append_prepend key data append ct, false⟩

/-- Modelled from the spec: btree_delete, sequence-group/token overload. -/
def btree_delete (key : store_key_t) (dont_put_in_delete_queue : Bool)
    (_seq_group : sequence_group_t) (timestamp : repli_timestamp_t)
    (_token : order_token_t) : algo_result_t :=
  ⟨core_algo_t.delete key dont_put_in_delete_queue timestamp, true⟩

/-- Modelled from the spec: btree_delete, open-transaction overload. -/
def btree_delete_txn (key : store_key_t) (dont_put_in_delete_queue : Bool)
    (timestamp : repli_timestamp_t) : algo_result_t :=
  ⟨core_algo_t.delete key dont_put_in_delete_queue timestamp, false⟩

/-- Modelled from the spec: btree_erase_range, sequence-group/token
overload. -/
def btree_erase_range (_seq_group : sequence_group_t)
    (tester : key_tester_t) (left_key_supplied : Bool)
    (left_key_exclusive : store_key_t) (right_key_supplied : Bool)
    (right_key_inclusive : store_key_t) (_token : order_token_t) :
    algo_result_t :=
  ⟨core_algo_t.erase_range tester left_key_supplied left_key_exclusive
      right_key_supplied right_key_inclusive, true⟩

/-- Modelled from the spec: btree_backfill, sequence-group/token
overload. -/
def btree_backfill (_seq_group : sequence_group_t) (range : key_range_t)
    (since_when : repli_timestamp_t) (callback : Nat)
    (_token : order_token_t) : algo_result_t :=
  ⟨core_algo_t.backfill range since_when callback, true⟩

/- ------------------------------------------------------------------ -/
/- Mutation results                                                   -/
/- ------------------------------------------------------------------ -/

/-- mutation_result_t: the tagged union mirroring the mutation variants,
each wrapping the result of the external algorithm that produced it. -/
inductive mutation_result_t
  | get_cas (r : algo_result_t)
  | set (r : algo_result_t)
  | incr_decr (r : algo_result_t)
  | append_prepend (r : algo_result_t)
  | delete (r : algo_result_t)
deriving DecidableEq, Repr

/-- The five mutation tags. -/
inductive mutation_tag_t
  | get_cas
  | sarc
  | incr_decr
  | append_prepend
  | delete
deriving DecidableEq, Repr

/-- The tag of a mutation variant. -/
def mutation_variant_tag : mutation_variant_t → mutation_tag_t
  | mutation_variant_t.get_cas _ => mutation_tag_t.get_cas
  | mutation_variant_t.sarc _ => mutation_tag_t.sarc
  | mutation_variant_t.incr_decr _ => mutation_tag_t.incr_decr
  | mutation_variant_t.append_prepend _ => mutation_tag_t.append_prepend
  | mutation_variant_t.delete _ => mutation_tag_t.delete

/-- The tag of a mutation result variant. -/
def mutation_result_tag : mutation_result_t → mutation_tag_t
  | mutation_result_t.get_cas _ => mutation_tag_t.get_cas
  | mutation_result_t.set _ => mutation_tag_t.sarc
  | mutation_result_t.incr_decr _ => mutation_tag_t.incr_decr
  | mutation_result_t.append_prepend _ => mutation_tag_t.append_prepend
  | mutation_result_t.delete _ => mutation_tag_t.delete

/-- The wrapped algorithm result of a mutation result. -/
def mutation_result_payload : mutation_result_t → algo_result_t
  | mutation_result_t.get_cas r => r
  | mutation_result_t.set r => r
  | mutation_result_t.incr_decr r => r
  | mutation_result_t.append_prepend r => r
  | mutation_result_t.delete r => r

/-- The external entry point that the specification pairs with each
mutation tag. -/
def expected_algo : mutation_tag_t → algo_name_t
  | mutation_tag_t.get_cas => algo_name_t.btree_get_cas
  | mutation_tag_t.sarc => algo_name_t.btree_set
  | mutation_tag_t.incr_decr => algo_name_t.btree_incr_decr
  | mutation_tag_t.append_prepend => algo_name_t.btree_append_prepend
  | mutation_tag_t.delete => algo_name_t.btree_delete

/- ------------------------------------------------------------------ -/
/- The two change visitors                                            -/
/- ------------------------------------------------------------------ -/

/-- btree_slice_change_visitor_t: dispatches a mutation variant to the
sequence-group/token overload of the matching external algorithm and wraps
its result in the matching result variant.  The match is exhaustive over
the five variants with no default branch, as in the source visitor. -/
def btree_slice_change_visitor_t_apply (seq_group : sequence_group_t)
    (ct : castime_t) (order_token : order_token_t) :
    mutation_variant_t → mutation_result_t
  | mutation_variant_t.get_cas m =>
      mutation_result_t.get_cas (btree_get_cas m.key seq_group ct order_token)
  | mutation_variant_t.sarc m =>
      mutation_result_t.set (btree_set m.key seq_group m.data m.flags
        m.exptime m.add_policy m.replace_policy m.old_cas ct order_token)
  | mutation_variant_t.incr_decr m =>
      mutation_result_t.incr_decr (btree_incr_decr m.key seq_group
        (m.kind == incr_decr_kind_t.incr_decr_INCR) m.amount ct order_token)
  | mutation_variant_t.append_prepend m =>
      mutation_result_t.append_prepend (btree_append_prepend m.key seq_group
        m.data (m.kind == append_prepend_kind_t.append_prepend_APPEND) ct
        order_token)
  | mutation_variant_t.delete m =>
      mutation_result_t.delete (btree_delete m.key m.dont_put_in_delete_queue
        seq_group ct.timestamp order_token)

/-- btree_slice_change_with_superblock_visitor_t: dispatches a mutation
variant to the open-transaction overload of the matching external
algorithm and wraps its result in the matching result variant.  The match
is exhaustive over the five variants with no default branch, as in the
source visitor. -/
def btree_slice_change_with_superblock_visitor_t_apply (ct : castime_t) :
    mutation_variant_t → mutation_result_t
  | mutation_variant_t.get_cas m =>
      mutation_result_t.get_cas (btree_get_cas_txn m.key ct)
  | mutation_variant_t.sarc m =>
      mutation_result_t.set (btree_set_txn m.key m.data m.flags m.exptime
        m.add_policy m.replace_policy m.old_cas ct)
  | mutation_variant_t.incr_decr m =>
      mutation_result_t.incr_decr (btree_incr_decr_txn m.key
        (m.kind == incr_decr_kind_t.incr_decr_INCR) m.amount ct)
  | mutation_variant_t.append_prepend m =>
      mutation_result_t.append_prepend (btree_append_prepend_txn m.key
        m.data (m.kind == append_prepend_kind_t.append_prepend_APPEND) ct)
  | mutation_variant_t.delete m =>
      mutation_result_t.delete (btree_delete_txn m.key
        m.dont_put_in_delete_queue ct.timestamp)

/- ------------------------------------------------------------------ -/
/- The slice controller                                               -/
/- ------------------------------------------------------------------ -/

/-- A step in the observable trace of one slice operation: either the
admission of an order token through the ordering checkpoint, or a call
into one of the external B-tree algorithm entry points. -/
inductive event_t
  | check_through (token : order_token_t)
  | algo_call (name : algo_name_t)
deriving DecidableEq, Repr

/-- Whether a trace begins with the admission of the given order token
through the ordering checkpoint, before anything else happens. -/
def checks_token_first (tr : List event_t) (tok : order_token_t) : Bool :=
  match tr with
  | event_t.check_through t :: _ => t == tok
  | _ => false

/-- btree_slice_t: the state of one slice controller that the extracted
operations touch: its ordering checkpoint (as the high-water mark of
admitted tokens) and the superblock buffer of its cache. -/
structure btree_slice_t where
  order_checkpoint_ : Nat
  superblock : superblock_buf_t
deriving DecidableEq, Repr

/-- btree_slice_t::create(cache, key_range): builds a sequence group sized
to get_slice_num() + 1, opens a write transaction, touches the recency of
the superblock block down to distant_past, zeroes the block, stamps the
magic tag, sets the root pointer to NULL_BLOCK_ID, sets the replication
clock and last_sync to distant_past, zeroes the master and slave ids, and
stores the fixed encoding of the key range as the metainfo.  Returns the
resulting superblock buffer and the sequence group it built. -/
def btree_slice_t.create (cache : cache_t) (prior : superblock_buf_t)
    (key_range : key_range_t) : superblock_buf_t × sequence_group_t :=
  let seq_group : sequence_group_t := ⟨cache.get_slice_num + 1⟩
  let buf₁ : superblock_buf_t := { prior with recency := distant_past }
  let sb₁ : btree_superblock_t := bzeroed_superblock
  let sb₂ : btree_superblock_t := { sb₁ with magic := expected_magic }
  let sb₃ : btree_superblock_t := { sb₂ with root_block := NULL_BLOCK_ID }
  let sb₄ : btree_superblock_t :=
    { sb₃ with replication_clock := distant_past, last_sync := distant_past }
  let sb₅ : btree_superblock_t :=
    { sb₄ with replication_master_id := 0, replication_slave_id := 0 }
  let sb₆ : btree_superblock_t :=
    set_superblock_metainfo sb₅ (encode_key_range key_range) []
  ({ buf₁ with sb := sb₆ }, seq_group)

/-- btree_slice_t::get (token overload): checks the token through the
ordering checkpoint, then calls btree_get. -/
def btree_slice_t.get (s : btree_slice_t) (key : store_key_t)
    (seq_group : sequence_group_t) (token : order_token_t) :
    algo_result_t × btree_slice_t × List event_t :=
  let p := order_checkpoint_check_through s.order_checkpoint_ token
  (btree_get key seq_group p.2,
   { s with order_checkpoint_ := p.1 },
   [event_t.check_through token, event_t.algo_call algo_name_t.btree_get])

/-- btree_slice_t::get (open-transaction overload): no token, no
checkpoint; calls btree_get on the supplied transaction. -/
def btree_slice_t.get_with_superblock (s : btree_slice_t)
    (key : store_key_t) : algo_result_t × List event_t :=
  (btree_get_txn key, [event_t.algo_call algo_name_t.btree_get])

/-- btree_slice_t::rget (token overload): checks the token through the
ordering checkpoint, then calls btree_rget_slice. -/
def btree_slice_t.rget (s : btree_slice_t) (seq_group : sequence_group_t)
    (left_mode : rget_bound_mode_t) (left_key : store_key_t)
    (right_mode : rget_bound_mode_t) (right_key : store_key_t)
    (token : order_token_t) : algo_result_t × btree_slice_t × List event_t :=
  let p := order_checkpoint_check_through s.order_checkpoint_ token
  (btree_rget_slice seq_group left_mode left_key right_mode right_key p.2,
   { s with order_checkpoint_ := p.1 },
   [event_t.check_through token,
    event_t.algo_call algo_name_t.btree_rget_slice])

/-- btree_slice_t::change (token overload): checks the token through the
ordering checkpoint, then applies the change visitor to the mutation. -/
def btree_slice_t.change (s : btree_slice_t)
    (seq_group : sequence_group_t) (m : mutation_t) (castime : castime_t)
    (token : order_token_t) :
    mutation_result_t × btree_slice_t × List event_t :=
  let p := order_checkpoint_check_through s.order_checkpoint_ token
  let r := btree_slice_change_visitor_t_apply seq_group castime p.2
    m.mutation
  (r, { s with order_checkpoint_ := p.1 },
   [event_t.check_through token,
    event_t.algo_call (algo_of_core (mutation_result_payload r).core)])

/-- btree_slice_t::change (open-transaction overload): no token, no
checkpoint; applies the with-superblock change visitor to the mutation. -/
def btree_slice_t.change_with_superblock (s : btree_slice_t)
    (m : mutation_t) (castime : castime_t) :
    mutation_result_t × List event_t :=
  let r := btree_slice_change_with_superblock_visitor_t_apply castime
    m.mutation
  (r, [event_t.algo_call (algo_of_core (mutation_result_payload r).core)])

/-- btree_slice_t::backfill_delete_range (token overload): checks the
token through the ordering checkpoint, then calls btree_erase_range. -/
def btree_slice_t.backfill_delete_range (s : btree_slice_t)
    (seq_group : sequence_group_t) (tester : key_tester_t)
    (left_key_supplied : Bool) (left_key_exclusive : store_key_t)
    (right_key_supplied : Bool) (right_key_inclusive : store_key_t)
    (token : order_token_t) : algo_result_t × btree_slice_t × List event_t :=
  let p := order_checkpoint_check_through s.order_checkpoint_ token
  (btree_erase_range seq_group tester left_key_supplied left_key_exclusive
      right_key_supplied right_key_inclusive p.2,
   { s with order_checkpoint_ := p.1 },
   [event_t.check_through token,
    event_t.algo_call algo_name_t.btree_erase_range])

/-- btree_slice_t::backfill (token overload): checks the token through the
ordering checkpoint, then calls btree_backfill with the backfill cache
account. -/
def btree_slice_t.backfill (s : btree_slice_t)
    (seq_group : sequence_group_t) (key_range : key_range_t)
    (since_when : repli_timestamp_t) (callback : Nat)
    (token : order_token_t) : algo_result_t × btree_slice_t × List event_t :=
  let p := order_checkpoint_check_through s.order_checkpoint_ token
  (btree_backfill seq_group key_range since_when callback p.2,
   { s with order_checkpoint_ := p.1 },
   [event_t.check_through token,
    event_t.algo_call algo_name_t.btree_backfill])

/-- btree_slice_t::set_replication_clock: checks the token through the
ordering checkpoint, opens a write transaction on the superblock, and
stores the maximum of the existing replication clock and the proposed
timestamp. -/
def btree_slice_t.set_replication_clock (s : btree_slice_t)
    (_seq_group : sequence_group_t) (t : repli_timestamp_t)
    (token : order_token_t) : btree_slice_t × List event_t :=
  let p := order_checkpoint_check_through s.order_checkpoint_ token
  ({ s with
      order_checkpoint_ := p.1,
      superblock := { s.superblock with
        sb := { s.superblock.sb with
          replication_clock :=
            Nat.max s.superblock.sb.replication_clock t } } },
   [event_t.check_through token])

/-- btree_slice_t::get_replication_clock: reads the replication clock
under a read transaction. -/
def btree_slice_t.get_replication_clock (s : btree_slice_t)
    (_seq_group : sequence_group_t) : repli_timestamp_t :=
  s.superblock.sb.replication_clock

/-- btree_slice_t::set_last_sync: the order token parameter is marked
UNUSED in the source and its checkpoint call is commented out, so no
checkpoint admission happens; opens a write transaction on the superblock
and stores the proposed timestamp into last_sync unconditionally. -/
def btree_slice_t.set_last_sync (s : btree_slice_t)
    (_seq_group : sequence_group_t) (t : repli_timestamp_t)
    (_token : order_token_t) : btree_slice_t × List event_t :=
  ({ s with
      superblock := { s.superblock with
        sb := { s.superblock.sb with last_sync := t } } },
   [])

/-- btree_slice_t::get_last_sync: reads last_sync under a read
transaction. -/
def btree_slice_t.get_last_sync (s : btree_slice_t)
    (_seq_group : sequence_group_t) : repli_timestamp_t :=
  s.superblock.sb.last_sync

/-- btree_slice_t::set_replication_master_id: stores the id
unconditionally (no order token parameter exists on this operation). -/
def btree_slice_t.set_replication_master_id (s : btree_slice_t)
    (_seq_group : sequence_group_t) (t : Nat) : btree_slice_t :=
  { s with
    superblock := { s.superblock with
      sb := { s.superblock.sb with replication_master_id := t } } }

/-- btree_slice_t::set_replication_slave_id: stores the id
unconditionally (no order token parameter exists on this operation). -/
def btree_slice_t.set_replication_slave_id (s : btree_slice_t)
    (_seq_group : sequence_group_t) (t : Nat) : btree_slice_t :=
  { s with
    superblock := { s.superblock with
      sb := { s.superblock.sb with replication_slave_id := t } } }

/- ------------------------------------------------------------------ -/
/- Cluster versions and the versioned codec dispatch                  -/
/- ------------------------------------------------------------------ -/

/-- Modelled from the spec: cluster_version_t (version.hpp is not among
the extracted sources) is an ordered contiguous enumeration whose valid
values run from v1_13 to v1_13_2_is_latest. -/
inductive cluster_version_t
  | v1_13
  | v1_13_2_is_latest
deriving DecidableEq, Repr

/-- The int8 representation value of each cluster version tag, contiguous
from the oldest supported version. -/
def cluster_version_int : cluster_version_t → Int
  | cluster_version_t.v1_13 => 0
  | cluster_version_t.v1_13_2_is_latest => 1

/-- serialize_cluster_version: the fixed version-independent codec for the
version tag itself writes its int8 representation value. -/
def serialize_cluster_version (v : cluster_version_t) : List Int :=
  [cluster_version_int v]

/-- The outcome of deserializing a cluster version tag from a stream of
int8 values. -/
inductive cluster_deser_result_t
  | success (v : cluster_version_t) (rest : List Int)
  | not_enough_data
  | range_error
deriving DecidableEq, Repr

/-- Modelled from the spec: deserialize_cluster_version, generated by
ARCHIVE_PRIM_MAKE_RANGED_SERIALIZABLE(cluster_version_t, int8_t, v1_13,
v1_13_2_is_latest): reads one int8 value and range-checks it against the
contiguous enum bounds, failing with a range error outside them. -/
def deserialize_cluster_version : List Int → cluster_deser_result_t
  | [] => cluster_deser_result_t.not_enough_data
  | b :: rest =>
      if b < cluster_version_int cluster_version_t.v1_13 ∨
          cluster_version_int cluster_version_t.v1_13_2_is_latest < b then
        cluster_deser_result_t.range_error
      else
        cluster_deser_result_t.success
          (if b = cluster_version_int cluster_version_t.v1_13 then
            cluster_version_t.v1_13
          else cluster_version_t.v1_13_2_is_latest) rest

/-- The outcome of deserializing a value of a registered type: success
carries the value and the unconsumed remainder of the stream; the failure
outcomes follow the spec taxonomy. -/
inductive deser_result_t (T : Type)
  | success (value : T) (rest : List Nat)
  | not_enough_data
  | extra_data_not_consumed
  | malformed
  | range_error
deriving DecidableEq, Repr

/-- Modelled from the spec: the per-version codec of one registered type:
a serializer, deserializer and size function for each valid cluster
version (the per-type template instantiations are not among the extracted
sources; the dispatch over them is). -/
structure versioned_codec_t (T : Type) where
  serialize_v1_13 : T → List Nat
  serialize_v1_13_2 : T → List Nat
  deserialize_v1_13 : List Nat → deser_result_t T
  deserialize_v1_13_2 : List Nat → deser_result_t T
  serialized_size_v1_13 : T → Nat
  serialized_size_v1_13_2 : T → Nat

/-- serialize_for_version: dispatches on the version tag to the matching
per-version serializer, exactly as the source switch does (the default
branch of the source is unreachable because the match is exhaustive over
the valid tags). -/
def serialize_for_version {T : Type} (codec : versioned_codec_t T)
    (version : cluster_version_t) (value : T) : List Nat :=
  match version with
  | cluster_version_t.v1_13 => codec.serialize_v1_13 value
  | cluster_version_t.v1_13_2_is_latest => codec.serialize_v1_13_2 value

/-- deserialize_for_version: dispatches on the version tag to the matching
per-version deserializer, exactly as the source switch does. -/
def deserialize_for_version {T : Type} (codec : versioned_codec_t T)
    (version : cluster_version_t) (s : List Nat) : deser_result_t T :=
  match version with
  | cluster_version_t.v1_13 => codec.deserialize_v1_13 s
  | cluster_version_t.v1_13_2_is_latest => codec.deserialize_v1_13_2 s

/-- serialized_size_for_version: dispatches on the version tag to the
matching per-version size function, exactly as the source switch does. -/
def serialized_size_for_version {T : Type} (codec : versioned_codec_t T)
    (version : cluster_version_t) (thing : T) : Nat :=
  match version with
  | cluster_version_t.v1_13 => codec.serialized_size_v1_13 thing
  | cluster_version_t.v1_13_2_is_latest => codec.serialized_size_v1_13_2 thing

/- ------------------------------------------------------------------ -/
/- Sample values used by the concrete witnesses                       -/
/- ------------------------------------------------------------------ -/

/-- A concrete registered type instance for witnesses: a Bool codec whose
two per-version encodings deliberately differ, with correct per-version
decoders and sizes. -/
def bool_codec : versioned_codec_t Bool :=
  { serialize_v1_13 := fun b => [if b then 1 else 0]
    serialize_v1_13_2 := fun b => [if b then 7 else 3]
    deserialize_v1_13 := fun s =>
      match s with
      | [1] => deser_result_t.success true []
      | [0] => deser_result_t.success false []
      | _ => deser_result_t.malformed
    deserialize_v1_13_2 := fun s =>
      match s with
      | [7] => deser_result_t.success true []
      | [3] => deser_result_t.success false []
      | _ => deser_result_t.malformed
    serialized_size_v1_13 := fun _ => 1
    serialized_size_v1_13_2 := fun _ => 1 }

/-- A concrete superblock buffer for witnesses. -/
def sample_buf : superblock_buf_t :=
  { sb := bzeroed_superblock, recency := 9 }

/-- A concrete slice state for witnesses. -/
def sample_slice : btree_slice_t :=
  { order_checkpoint_ := 0, superblock := sample_buf }

/-- A concrete sequence group for witnesses. -/
def sample_sg : sequence_group_t := ⟨4⟩

/-- A concrete cache for witnesses: slice number 3, block size 4096. -/
def sample_cache : cache_t := { slice_num := 3, block_size := 4096 }

/-- A concrete key range for witnesses. -/
def sample_key_range : key_range_t :=
  { left_mode := bound_mode_t.bm_open
    left_key := [97]
    right_mode := bound_mode_t.bm_closed
    right_key := [122, 5] }

/- ------------------------------------------------------------------ -/
/- Helper lemmas                                                      -/
/- ------------------------------------------------------------------ -/

/-- Reading a length-prefixed store key back from the front of a stream
recovers the key and the rest of the stream. -/
theorem read_store_key_encode (k t : List Nat) :
    read_store_key (encode_store_key k ++ t) = some (k, t) := by
  have h1 : (k ++ t).take k.length = k := List.take_left k t
  have h2 : (k ++ t).drop k.length = t := List.drop_left k t
  show read_store_key (k.length :: (k ++ t)) = some (k, t)
  simp [read_store_key, h1, h2, List.length_append, Nat.le_add_right]

/-- Reading a length-prefixed store key that ends the stream recovers the
key with an empty remainder. -/
theorem read_store_key_encode_nil (k : List Nat) :
    read_store_key (encode_store_key k) = some (k, []) := by
  have h := read_store_key_encode k []
  simpa using h

/-- The fixed metainfo key-range codec round-trips. -/
theorem decode_encode_key_range (r : key_range_t) :
    decode_key_range (encode_key_range r) = some r := by
  obtain ⟨lm, lk, rm, rk⟩ := r
  cases lm <;> cases rm <;>
    simp [encode_key_range, decode_key_range, bound_mode_t.code,
      decode_bound_mode, read_store_key_encode, read_store_key_encode_nil]

/- ------------------------------------------------------------------ -/
/- Claim theorems                                                     -/
/- ------------------------------------------------------------------ -/

/-- C1: for every stored replication clock and proposed timestamp t,
set_replication_clock(t) leaves the stored clock equal to the maximum of
the old clock and t; in particular calling it with t2 and then with
t1 < t2 leaves the clock exactly where the t2 call left it — at t2
whenever the clock did not already exceed t2 — never regressing to t1. -/
theorem C1_set_replication_clock_monotonic (s : btree_slice_t)
    (sg : sequence_group_t) (t t1 t2 : repli_timestamp_t)
    (tok tok1 tok2 : order_token_t)
    (h : t1 < t2)
    (hc : btree_slice_t.get_replication_clock s sg ≤ t2) :
    ((btree_slice_t.set_replication_clock s sg t tok).1.get_replication_clock
        sg = Nat.max (btree_slice_t.get_replication_clock s sg) t)
    ∧ ((btree_slice_t.set_replication_clock
          (btree_slice_t.set_replication_clock s sg t2 tok2).1 sg t1
          tok1).1.get_replication_clock sg
        = (btree_slice_t.set_replication_clock s sg t2
            tok2).1.get_replication_clock sg)
    ∧ ((btree_slice_t.set_replication_clock
          (btree_slice_t.set_replication_clock s sg t2 tok2).1 sg t1
          tok1).1.get_replication_clock sg = t2) := by
  have hc' : s.superblock.sb.replication_clock ≤ t2 := hc
  have h12 : t1 ≤ Nat.max s.superblock.sb.replication_clock t2 :=
    Nat.le_trans (Nat.le_of_lt h)
      (Nat.le_max_right s.superblock.sb.replication_clock t2)
  refine ⟨rfl, ?_, ?_⟩
  · show Nat.max (Nat.max s.superblock.sb.replication_clock t2) t1
        = Nat.max s.superblock.sb.replication_clock t2
    exact Nat.max_eq_left h12
  · show Nat.max (Nat.max s.superblock.sb.replication_clock t2) t1 = t2
    have e1 : Nat.max s.superblock.sb.replication_clock t2 = t2 :=
      Nat.max_eq_right hc'
    rw [e1]
    exact Nat.max_eq_left (Nat.le_of_lt h)

/-- Witness for C1 at a concrete slice: clock 0, t = 5, t2 = 2, t1 = 1. -/
theorem C1_witness :
    (1 : Nat) < 2
    ∧ btree_slice_t.get_replication_clock sample_slice sample_sg ≤ 2
    ∧ (((btree_slice_t.set_replication_clock sample_slice sample_sg 5
            8).1.get_replication_clock sample_sg
          = Nat.max (btree_slice_t.get_replication_clock sample_slice
              sample_sg) 5)
        ∧ ((btree_slice_t.set_replication_clock
              (btree_slice_t.set_replication_clock sample_slice sample_sg 2
                6).1 sample_sg 1 7).1.get_replication_clock sample_sg
            = (btree_slice_t.set_replication_clock sample_slice sample_sg 2
                6).1.get_replication_clock sample_sg)
        ∧ ((btree_slice_t.set_replication_clock
              (btree_slice_t.set_replication_clock sample_slice sample_sg 2
                6).1 sample_sg 1 7).1.get_replication_clock sample_sg = 2)) :=
  ⟨by decide, by decide,
    C1_set_replication_clock_monotonic sample_slice sample_sg 5 1 2 8 7 6
      (by decide) (by decide)⟩

/-- C3: after create(cache, K) the superblock carries the expected magic,
the NULL_BLOCK_ID root sentinel, distant_past in both the replication
clock and last_sync, zero master and slave ids, a metainfo blob that
decodes exactly to K, and the recency marker of the root block is
distant_past. -/
theorem C3_create_fresh_superblock (cache : cache_t)
    (prior : superblock_buf_t) (K : key_range_t) :
    ((btree_slice_t.create cache prior K).1.sb.magic = expected_magic)
    ∧ ((btree_slice_t.create cache prior K).1.sb.root_block = NULL_BLOCK_ID)
    ∧ ((btree_slice_t.create cache prior K).1.sb.replication_clock
        = distant_past)
    ∧ ((btree_slice_t.create cache prior K).1.sb.last_sync = distant_past)
    ∧ ((btree_slice_t.create cache prior K).1.sb.replication_master_id = 0)
    ∧ ((btree_slice_t.create cache prior K).1.sb.replication_slave_id = 0)
    ∧ (decode_superblock_key_range (btree_slice_t.create cache prior K).1.sb
        = some K)
    ∧ ((btree_slice_t.create cache prior K).1.recency = distant_past) := by
  refine ⟨rfl, rfl, rfl, rfl, rfl, rfl, ?_, rfl⟩
  show decode_key_range (encode_key_range K) = some K
  exact decode_encode_key_range K

/-- C9: the sequence group built by create has get_slice_num() + 1 FIFO
lanes, so a transaction for any shard index up to and including the
current slice number fits without reallocation. -/
theorem C9_sequence_group_sized (cache : cache_t) (prior : superblock_buf_t)
    (K : key_range_t) (i : Nat) (h : i ≤ cache.get_slice_num) :
    ((btree_slice_t.create cache prior K).2.fifo_count
        = cache.get_slice_num + 1)
    ∧ transaction_fits (btree_slice_t.create cache prior K).2 i = true := by
  refine ⟨rfl, ?_⟩
  simp only [btree_slice_t.create, transaction_fits, cache_t.get_slice_num,
    decide_eq_true_eq] at h ⊢
  omega

/-- Witness for C9 at a concrete cache with slice number 3 and shard
index 3. -/
theorem C9_witness :
    (3 : Nat) ≤ sample_cache.get_slice_num
    ∧ (((btree_slice_t.create sample_cache sample_buf
            sample_key_range).2.fifo_count = sample_cache.get_slice_num + 1)
        ∧ transaction_fits (btree_slice_t.create sample_cache sample_buf
            sample_key_range).2 3 = true) :=
  ⟨by decide,
    C9_sequence_group_sized sample_cache sample_buf sample_key_range 3
      (by decide)⟩

/-- C10: set_last_sync(t) stores exactly t into last_sync, with no maximum
applied — for every t, including one smaller than the stored value, the
field afterwards reads t — and every other superblock field and the
recency marker are unchanged. -/
theorem C10_set_last_sync_exact_and_frame (s : btree_slice_t)
    (sg : sequence_group_t) (t : repli_timestamp_t) (tok : order_token_t) :
    ((btree_slice_t.set_last_sync s sg t tok).1.get_last_sync sg = t)
    ∧ ((btree_slice_t.set_last_sync s sg t tok).1.superblock.sb.magic
        = s.superblock.sb.magic)
    ∧ ((btree_slice_t.set_last_sync s sg t tok).1.superblock.sb.root_block
        = s.superblock.sb.root_block)
    ∧ ((btree_slice_t.set_last_sync s sg t
          tok).1.superblock.sb.replication_clock
        = s.superblock.sb.replication_clock)
    ∧ ((btree_slice_t.set_last_sync s sg t
          tok).1.superblock.sb.replication_master_id
        = s.superblock.sb.replication_master_id)
    ∧ ((btree_slice_t.set_last_sync s sg t
          tok).1.superblock.sb.replication_slave_id
        = s.superblock.sb.replication_slave_id)
    ∧ ((btree_slice_t.set_last_sync s sg t tok).1.superblock.sb.metainfo
        = s.superblock.sb.metainfo)
    ∧ ((btree_slice_t.set_last_sync s sg t tok).1.superblock.recency
        = s.superblock.recency) :=
  ⟨rfl, rfl, rfl, rfl, rfl, rfl, rfl, rfl⟩

/-- C2 counterexample: at a concrete slice, timestamp and token,
set_last_sync — one of the listed token-accepting operations — performs no
checkpoint admission at all before operating, so it does not first pass
its token through check_through as the claim states. -/
theorem C2_counterexample :
    checks_token_first
      (btree_slice_t.set_last_sync sample_slice sample_sg 5 7).2 7 = false :=
  rfl

/-- C2 amended: every token-accepting public operation except
set_last_sync (get, rget, change, backfill, backfill_delete_range,
set_replication_clock) first passes its token through the ordering
checkpoint before performing the operation; set_last_sync accepts an
order token but ignores it — its checkpoint call is commented out and the
parameter is marked UNUSED in the source — performing no checkpoint
admission. -/
theorem C2_amended_token_ops_check_first (s : btree_slice_t)
    (sg : sequence_group_t) (key : store_key_t)
    (lm rm : rget_bound_mode_t) (lk rk : store_key_t)
    (m : mutation_t) (ct : castime_t)
    (kr : key_range_t) (since_when : repli_timestamp_t) (cb : Nat)
    (tester : key_tester_t) (lks rks : Bool) (lke rki : store_key_t)
    (t : repli_timestamp_t) (tok : order_token_t) :
    (checks_token_first (btree_slice_t.get s key sg tok).2.2 tok = true)
    ∧ (checks_token_first (btree_slice_t.rget s sg lm lk rm rk tok).2.2 tok
        = true)
    ∧ (checks_token_first (btree_slice_t.change s sg m ct tok).2.2 tok
        = true)
    ∧ (checks_token_first
        (btree_slice_t.backfill s sg kr since_when cb tok).2.2 tok = true)
    ∧ (checks_token_first
        (btree_slice_t.backfill_delete_range s sg tester lks lke rks rki
          tok).2.2 tok = true)
    ∧ (checks_token_first
        (btree_slice_t.set_replication_clock s sg t tok).2 tok = true)
    ∧ ((btree_slice_t.set_last_sync s sg t tok).2 = []) := by
  refine ⟨?_, ?_, ?_, ?_, ?_, ?_, rfl⟩ <;>
    simp [checks_token_first, btree_slice_t.get, btree_slice_t.rget,
      btree_slice_t.change, btree_slice_t.backfill,
      btree_slice_t.backfill_delete_range,
      btree_slice_t.set_replication_clock]

/-- C4: for every mutation variant, change invokes exactly the external
algorithm the claim pairs with its tag and wraps the result in the
matching variant of mutation_result_t; the trace shows one checkpoint
admission followed by exactly that one algorithm call, and the Lean match
underlying the dispatcher is exhaustive over the five variants with no
default branch. -/
theorem C4_change_dispatch_exact (s : btree_slice_t)
    (sg : sequence_group_t) (m : mutation_t) (ct : castime_t)
    (tok : order_token_t) :
    (mutation_result_tag (btree_slice_t.change s sg m ct tok).1
        = mutation_variant_tag m.mutation)
    ∧ (algo_of_core (mutation_result_payload
          (btree_slice_t.change s sg m ct tok).1).core
        = expected_algo (mutation_variant_tag m.mutation))
    ∧ ((btree_slice_t.change s sg m ct tok).2.2
        = [event_t.check_through tok,
           event_t.algo_call
             (expected_algo (mutation_variant_tag m.mutation))])
    ∧ ((mutation_result_payload
          (btree_slice_t.change s sg m ct tok).1).own_txn = true) := by
  obtain ⟨mv⟩ := m
  cases mv <;> exact ⟨rfl, rfl, rfl, rfl⟩

/-- C5: for every mutation variant, the token-accepting shape of change
and the open-transaction shape route the variant to the same underlying
core algorithm with identical parameters and wrap the result in the same
result variant; the only difference recorded is transaction ownership. -/
theorem C5_change_shapes_equivalent (s : btree_slice_t)
    (sg : sequence_group_t) (m : mutation_t) (ct : castime_t)
    (tok : order_token_t) :
    (mutation_result_tag (btree_slice_t.change s sg m ct tok).1
        = mutation_result_tag
            (btree_slice_t.change_with_superblock s m ct).1)
    ∧ ((mutation_result_payload (btree_slice_t.change s sg m ct tok).1).core
        = (mutation_result_payload
            (btree_slice_t.change_with_superblock s m ct).1).core)
    ∧ ((mutation_result_payload
          (btree_slice_t.change s sg m ct tok).1).own_txn = true)
    ∧ ((mutation_result_payload
          (btree_slice_t.change_with_superblock s m ct).1).own_txn
        = false) := by
  obtain ⟨mv⟩ := m
  cases mv <;> exact ⟨rfl, rfl, rfl, rfl⟩

/-- C6: for every valid cluster version tag and every value of a
registered type — a type whose per-version codecs each round-trip — the
dispatched deserialize_for_version recovers from the output of the
dispatched serialize_for_version exactly the original value, consuming the
whole stream. -/
theorem C6_roundtrip_law {T : Type} (codec : versioned_codec_t T)
    (h13 : ∀ x, codec.deserialize_v1_13 (codec.serialize_v1_13 x)
        = deser_result_t.success x [])
    (h132 : ∀ x, codec.deserialize_v1_13_2 (codec.serialize_v1_13_2 x)
        = deser_result_t.success x [])
    (v : cluster_version_t) (x : T) :
    deserialize_for_version codec v (serialize_for_version codec v x)
      = deser_result_t.success x [] := by
  cases v
  · exact h13 x
  · exact h132 x

/-- Witness for C6: the concrete Bool codec at version v1_13_2_is_latest
and value true. -/
theorem C6_witness :
    deserialize_for_version bool_codec cluster_version_t.v1_13_2_is_latest
        (serialize_for_version bool_codec
          cluster_version_t.v1_13_2_is_latest true)
      = deser_result_t.success true [] :=
  C6_roundtrip_law bool_codec (by decide) (by decide)
    cluster_version_t.v1_13_2_is_latest true

/-- C7: for every valid cluster version tag and every value of a
registered type — a type whose per-version size functions agree with the
byte length of its per-version serializers — the dispatched
serialized_size_for_version equals the exact length of the output of the
dispatched serialize_for_version. -/
theorem C7_size_law {T : Type} (codec : versioned_codec_t T)
    (h13 : ∀ x, codec.serialized_size_v1_13 x
        = (codec.serialize_v1_13 x).length)
    (h132 : ∀ x, codec.serialized_size_v1_13_2 x
        = (codec.serialize_v1_13_2 x).length)
    (v : cluster_version_t) (x : T) :
    serialized_size_for_version codec v x
      = (serialize_for_version codec v x).length := by
  cases v
  · exact h13 x
  · exact h132 x

/-- Witness for C7: the concrete Bool codec at version v1_13 and value
false. -/
theorem C7_witness :
    serialized_size_for_version bool_codec cluster_version_t.v1_13 false
      = (serialize_for_version bool_codec cluster_version_t.v1_13
          false).length :=
  C7_size_law bool_codec (by decide) (by decide) cluster_version_t.v1_13
    false

/-- C8: deserialize_cluster_version on a stream whose leading encoded tag
lies outside the contiguous valid range from v1_13 to v1_13_2_is_latest
fails with a range error and never returns a value, and on every tag
inside the range it succeeds. -/
theorem C8_cluster_version_range (b : Int) (rest : List Int) :
    ((deserialize_cluster_version (b :: rest)
        = cluster_deser_result_t.range_error)
      ↔ (b < cluster_version_int cluster_version_t.v1_13
          ∨ cluster_version_int cluster_version_t.v1_13_2_is_latest < b))
    ∧ ((∃ v, deserialize_cluster_version (b :: rest)
          = cluster_deser_result_t.success v rest)
        ↔ (cluster_version_int cluster_version_t.v1_13 ≤ b
            ∧ b ≤ cluster_version_int cluster_version_t.v1_13_2_is_latest)) := by
  by_cases hb : b < cluster_version_int cluster_version_t.v1_13 ∨
      cluster_version_int cluster_version_t.v1_13_2_is_latest < b
  · have hd : deserialize_cluster_version (b :: rest)
        = cluster_deser_result_t.range_error := by
      simp only [deserialize_cluster_version]
      rw [if_pos hb]
    refine ⟨iff_of_true hd hb, ?_⟩
    constructor
    · rintro ⟨v, hv⟩
      rw [hd] at hv
      simp at hv
    · intro hle
      rcases hb with hlt | hlt
      · exact absurd hle.1 (not_le.mpr hlt)
      · exact absurd hle.2 (not_le.mpr hlt)
  · have hd : deserialize_cluster_version (b :: rest)
        = cluster_deser_result_t.success
            (if b = cluster_version_int cluster_version_t.v1_13 then
              cluster_version_t.v1_13
            else cluster_version_t.v1_13_2_is_latest) rest := by
      simp only [deserialize_cluster_version]
      rw [if_neg hb]
    constructor
    · constructor
      · intro hEq
        rw [hd] at hEq
        simp at hEq
      · intro hout
        exact absurd hout hb
    · constructor
      · intro _
        push_neg at hb
        exact hb
      · intro _
        exact ⟨_, hd⟩
